import Mathlib

/-!
Verification of the expo-server-sdk-rust push-notification client.

The development shallowly embeds the library's data model and control
flow in Lean:

* Rust strings are modelled as lists of characters (`RStr`).
* JSON values (serde_json `Value`) are modelled by the inductive `Json`.
* Fallible Rust functions returning `Result` are modelled with `Except`;
  functions that may additionally panic are modelled with `RustResult`,
  whose `crash` constructor records a Rust panic and its message.
* The HTTP round trip performed by `send_push_notifications_chunk` is
  abstracted as an oracle `dispatch : List α → Except ε (List τ)`
  passed to the functions that drive it; everything around the oracle
  (chunking, error propagation, accumulation, the pop/unwrap of the
  single-message path, and the compression decision on the serialized
  body) is translated from `src/lib.rs`.
-/

/-- Rust strings modelled as lists of characters. -/
abbrev RStr := List Char

/-- serde_json `Value`: null, booleans, numbers, strings, arrays and
objects (objects as ordered association lists). -/
inductive Json where
  | null : Json
  | bool : Bool → Json
  | num : Int → Json
  | str : RStr → Json
  | arr : List Json → Json
  | obj : List (RStr × Json) → Json

/-- Field lookup in a JSON object: first binding of the key wins. -/
def jLookup (k : RStr) : List (RStr × Json) → Option Json
  | [] => none
  | (k2, v) :: rest => if k2 = k then some v else jLookup k rest

/-- Keys of a JSON object, in order; other JSON values have no keys. -/
def jsonObjKeys : Json → List RStr
  | .obj fields => fields.map Prod.fst
  | _ => []

/-- Outcome of running a Rust function that returns `Result<α, ε>` but may
also panic: `ok` and `err` are the two `Result` constructors, `crash`
records a panic together with its message. -/
inductive RustResult (ε α : Type) where
  | ok : α → RustResult ε α
  | err : ε → RustResult ε α
  | crash : RStr → RustResult ε α
deriving DecidableEq

/-- Rust `slice::chunks` after its non-zero-size assertion has passed:
successive groups of `k` elements, the last group possibly shorter.
(For `k = 0` this definition is never used: see `sliceChunks`.) -/
def chunksGo (k : Nat) : List α → List (List α)
  | [] => []
  | x :: xs => (x :: xs.take (k - 1)) :: chunksGo k (xs.drop (k - 1))
termination_by l => l.length
decreasing_by
  simp [List.length_drop]
  exact Nat.lt_succ_of_le (Nat.sub_le _ _)

/-- Rust `slice::chunks(chunk_size)`: asserts `chunk_size != 0` (a panic,
modelled as `none`) and otherwise yields the chunk list. -/
def sliceChunks (k : Nat) (l : List α) : Option (List (List α)) :=
  if k = 0 then none else some (chunksGo k l)

/-- Panic message of Rust `slice::chunks` when the chunk size is zero. -/
def chunkSizeZeroMsg : RStr := "chunk size must be non-zero".data

/-- The loop body of `PushNotifier::send_push_notifications` in
`src/lib.rs`: iterate over the chunks, dispatch each one with `?`
(propagating the first error) and append the returned tickets to the
accumulator. -/
def dispatchLoop (dispatch : List α → Except ε (List τ)) :
    List (List α) → List τ → RustResult ε (List τ)
  | [], acc => .ok acc
  | c :: cs, acc =>
    match dispatch c with
    | .error e => .err e
    | .ok r => dispatchLoop dispatch cs (acc ++ r)

/-- The gzip policy enum declared inline in `src/lib.rs` (the legacy
client): threshold at 1024 bytes, never, or always. -/
inductive LibGzipPolicy where
  | ZipGreaterThan1024Bytes : LibGzipPolicy
  | Never : LibGzipPolicy
  | Always : LibGzipPolicy
deriving DecidableEq

/-- `Default for GzipPolicy` in `src/lib.rs`. -/
def libGzipPolicyDefault : LibGzipPolicy := .ZipGreaterThan1024Bytes

/-- The compression decision of `send_push_notifications_chunk` in
`src/lib.rs`, as a function of the policy and of the byte length of the
uncompressed serialized request body (`body.len()` is taken before any
compression happens). -/
def libShouldCompress : LibGzipPolicy → Nat → Bool
  | .Always, _ => true
  | .Never, _ => false
  | .ZipGreaterThan1024Bytes, len => decide (len > 1024)

/-- The gzip policy enum of `src/gzip_policy.rs` (the current module),
whose threshold variant carries the byte threshold. -/
inductive GzipPolicy where
  | ZipGreaterThanTreshold : Nat → GzipPolicy
  | Never : GzipPolicy
  | Always : GzipPolicy
deriving DecidableEq

/-- `Default for GzipPolicy` in `src/gzip_policy.rs`: threshold of 1024
bytes. -/
def gzipPolicyDefault : GzipPolicy := .ZipGreaterThanTreshold 1024

/-- Modelled from the spec: the call site of `gzip_policy.rs`'s
`GzipPolicy` (the current client) is not among the given sources; spec
section 4.2 says the threshold policy compresses only if the serialized
chunk body exceeds the threshold, and `Always`/`Never` ignore the size. -/
def shouldCompress : GzipPolicy → Nat → Bool
  | .Always, _ => true
  | .Never, _ => false
  | .ZipGreaterThanTreshold t, len => decide (len > t)

/-- The `PushNotifier` configuration of `src/lib.rs` (the `reqwest`
client handle carries no observable state and is omitted). -/
structure PushNotifier where
  url : RStr
  pushes_per_request : Nat
  gzip_policy : LibGzipPolicy

/-- `PushNotifier::new`: Expo endpoint, 100 pushes per request, default
gzip policy. -/
def PushNotifier.new : PushNotifier :=
  { url := "https://exp.host/--/api/v2/push/send".data
    pushes_per_request := 100
    gzip_policy := libGzipPolicyDefault }

/-- `PushNotifier::with_pushes_per_request`: overwrite the chunk size
with the given value (no validation is performed). -/
def with_pushes_per_request (p : PushNotifier) (n : Nat) : PushNotifier :=
  { p with pushes_per_request := n }

/-- `PushNotifier::gzip_policy` builder method. -/
def with_gzip_policy (p : PushNotifier) (g : LibGzipPolicy) : PushNotifier :=
  { p with gzip_policy := g }

/-- `PushNotifier::send_push_notifications` from `src/lib.rs`: chunk the
message slice by `pushes_per_request` (panicking if it is zero, as
`slice::chunks` does), then dispatch the chunks in order, accumulating
tickets and propagating the first chunk error. The per-chunk HTTP round
trip is the `dispatch` oracle. -/
def send_push_notifications (p : PushNotifier)
    (dispatch : List α → Except ε (List τ)) (messages : List α) :
    RustResult ε (List τ) :=
  match sliceChunks p.pushes_per_request messages with
  | none => .crash chunkSizeZeroMsg
  | some cs => dispatchLoop dispatch cs []

/-- Rust `Vec::pop`: removes and returns the last element. -/
def vecPop (l : List α) : Option α := l.getLast?

/-- Panic message of `Option::unwrap` on `None`. -/
def unwrapNoneMsg : RStr := "called Option::unwrap() on a None value".data

/-- `PushNotifier::send_push_notification` from `src/lib.rs`: dispatch
the singleton slice `[message]` as one chunk, then `pop().unwrap()` the
returned ticket vector — a panic when the vector is empty. -/
def send_push_notification (dispatch : List α → Except ε (List τ))
    (message : α) : RustResult ε τ :=
  match dispatch [message] with
  | .error e => .err e
  | .ok ts =>
    match vecPop ts with
    | none => .crash unwrapNoneMsg
    | some t => .ok t

/-! ### Chunker lemmas -/

theorem chunksGo_nil (k : Nat) : chunksGo k ([] : List α) = [] := by
  simp [chunksGo]

theorem chunksGo_eq_nil_iff (k : Nat) (l : List α) :
    chunksGo k l = [] ↔ l = [] := by
  cases l with
  | nil => simp [chunksGo]
  | cons x xs => simp [chunksGo]

theorem chunksGo_flatten (k : Nat) (l : List α) :
    (chunksGo k l).flatten = l := by
  induction l using chunksGo.induct k with
  | case1 => simp [chunksGo]
  | case2 x xs ih =>
    simp only [chunksGo, List.flatten_cons]
    rw [ih]
    simp [List.take_append_drop]

theorem chunksGo_length (k : Nat) (hk : 0 < k) (l : List α) :
    (chunksGo k l).length = (l.length + k - 1) / k := by
  induction l using chunksGo.induct k with
  | case1 =>
    rw [chunksGo_nil]
    simp only [List.length_nil, Nat.zero_add]
    rw [Nat.div_eq_of_lt (Nat.sub_lt hk Nat.one_pos)]
  | case2 x xs ih =>
    obtain ⟨j, rfl⟩ : ∃ j, k = j + 1 := ⟨k - 1, (Nat.succ_pred_eq_of_pos hk).symm⟩
    simp only [chunksGo, List.length_cons, List.length_drop] at ih ⊢
    rw [ih]
    have hgoal : xs.length + 1 + (j + 1) - 1 = xs.length + (j + 1) := by omega
    rw [hgoal, Nat.add_div_right _ (Nat.succ_pos j)]
    rcases le_or_lt j xs.length with hle | hlt
    · have h1 : xs.length - (j + 1 - 1) + (j + 1) - 1 = xs.length - j + j := by omega
      rw [h1, Nat.sub_add_cancel hle]
    · have h1 : xs.length - (j + 1 - 1) = 0 := by omega
      rw [h1]
      rw [Nat.div_eq_of_lt (by omega), Nat.div_eq_of_lt (by omega)]

theorem chunksGo_dropLast_length (k : Nat) (hk : 0 < k) (l : List α) :
    ∀ c ∈ (chunksGo k l).dropLast, c.length = k := by
  induction l using chunksGo.induct k with
  | case1 =>
    rw [chunksGo_nil]
    intro c hc
    simp at hc
  | case2 x xs ih =>
    simp only [chunksGo]
    rcases heq : chunksGo k (xs.drop (k - 1)) with _ | ⟨r, rs⟩
    · intro c hc
      simp at hc
    · intro c hc
      rw [List.dropLast_cons₂, List.mem_cons] at hc
      rcases hc with hc | hc
      · subst hc
        have hne : xs.drop (k - 1) ≠ [] := by
          intro h
          rw [h, chunksGo_nil] at heq
          exact List.cons_ne_nil r rs heq.symm
        have hlt : k - 1 < xs.length := by
          by_contra h
          exact hne (List.drop_eq_nil_of_le (Nat.le_of_not_lt h))
        simp only [List.length_cons, List.length_take]
        omega
      · rw [← heq] at hc
        exact ih c hc

/-! ### Dispatch loop lemmas -/

theorem dispatchLoop_all_ok (dispatch : List α → Except ε (List τ))
    (f : List α → List τ) :
    ∀ (cs : List (List α)) (acc : List τ),
      (∀ c ∈ cs, dispatch c = .ok (f c)) →
      dispatchLoop dispatch cs acc = .ok (acc ++ (cs.map f).flatten) := by
  intro cs
  induction cs with
  | nil =>
    intro acc _
    simp [dispatchLoop]
  | cons c cs ih =>
    intro acc h
    have hc : dispatch c = .ok (f c) := h c (List.mem_cons_self c cs)
    simp only [dispatchLoop, hc]
    rw [ih (acc ++ f c) fun d hd => h d (List.mem_cons_of_mem c hd)]
    simp [List.append_assoc]

theorem dispatchLoop_first_err (dispatch : List α → Except ε (List τ)) :
    ∀ (cs : List (List α)) (acc : List τ),
      (∃ c ∈ cs, ∃ e, dispatch c = .error e) →
      ∃ e, dispatchLoop dispatch cs acc = .err e := by
  intro cs
  induction cs with
  | nil =>
    intro acc h
    rcases h with ⟨c, hc, _⟩
    simp at hc
  | cons c cs ih =>
    intro acc h
    rcases hd : dispatch c with e | r
    · exact ⟨e, by simp [dispatchLoop, hd]⟩
    · rcases h with ⟨c2, hc2, e2, he2⟩
      rcases List.mem_cons.mp hc2 with rfl | hmem
      · rw [hd] at he2
        exact absurd he2 (by simp)
      · simp only [dispatchLoop, hd]
        exact ih (acc ++ r) ⟨c2, hmem, e2, he2⟩

/-! ### Token parsing (`TryFrom<String> for PushToken` in `src/message.rs`
and the identical `FromStr` in `src/lib.rs`) -/

/-- Rust `str::starts_with`: `startsWithL s p` is true when `p` is an
initial segment of `s`. -/
def startsWithL : RStr → RStr → Bool
  | _, [] => true
  | [], _ :: _ => false
  | c :: s, d :: p => c = d && startsWithL s p

/-- Rust `str::ends_with`: `endsWithL s p` is true when `p` is a final
segment of `s`. -/
def endsWithL (s p : RStr) : Bool := startsWithL s.reverse p.reverse

theorem startsWithL_append (p r : RStr) : startsWithL (p ++ r) p = true := by
  induction p with
  | nil => cases r <;> rfl
  | cons c p ih => simp [startsWithL, ih]

theorem endsWithL_append (r p : RStr) : endsWithL (r ++ p) p = true := by
  rw [endsWithL, List.reverse_append]
  exact startsWithL_append p.reverse r.reverse

/-- The recipient token newtype of `src/message.rs` (and `src/lib.rs`):
a wrapper around the raw accepted string. -/
structure PushToken where
  raw : RStr
deriving DecidableEq

/-- The parse error of `src/message.rs`, carrying the rejected input. -/
structure PushTokenParseError where
  given : RStr
deriving DecidableEq

/-- `TryFrom<String> for PushToken` in `src/message.rs` (the `FromStr`
implementation in `src/lib.rs` is character-for-character the same
check): accept exactly the strings that start with one of the two
recognized heads and end with a closing bracket. -/
def pushTokenTryFrom (s : RStr) : Except PushTokenParseError PushToken :=
  if (startsWithL s "ExponentPushToken[".data || startsWithL s "ExpoPushToken[".data)
      && endsWithL s "]".data
  then .ok ⟨s⟩
  else .error ⟨s⟩

/-! ### Message model (`src/message.rs`, identical in `src/lib.rs`) -/

/-- The `Sound` enum: a single variant serialized as "default". -/
inductive Sound where
  | Default : Sound
deriving DecidableEq

/-- The `Priority` enum: serialized as "default", "normal" or "high". -/
inductive Priority where
  | Default : Priority
  | Normal : Priority
  | High : Priority
deriving DecidableEq

/-- `PushMessage`: the required `to` token and eight optional fields. -/
structure PushMessage where
  «to» : PushToken
  data : Option Json
  title : Option RStr
  body : Option RStr
  sound : Option Sound
  ttl : Option Nat
  expiration : Option Nat
  priority : Option Priority
  badge : Option Nat

/-- `PushMessage::new`: only the token, every optional field unset. -/
def PushMessage.new (push_token : PushToken) : PushMessage :=
  { «to» := push_token
    data := none
    title := none
    body := none
    sound := none
    ttl := none
    expiration := none
    priority := none
    badge := none }

/-- Serde serialization of `Sound`. -/
def serializeSound : Sound → Json
  | .Default => .str "default".data

/-- Serde serialization of `Priority`. -/
def serializePriority : Priority → Json
  | .Default => .str "default".data
  | .Normal => .str "normal".data
  | .High => .str "high".data

/-- One optional struct field under `skip_serializing_if = "Option::is_none"`:
a single key-value pair when set, nothing at all when unset. -/
def optField (k : RStr) : Option Json → List (RStr × Json)
  | none => []
  | some v => [(k, v)]

/-- Serde serialization of `PushMessage`: the `to` key always, then the
optional fields in declaration order, each present exactly when set
(`skip_serializing_if = "Option::is_none"` on every optional field). The
`PushToken` newtype serializes as its inner string. -/
def serializePushMessage (m : PushMessage) : Json :=
  .obj ([("to".data, .str m.to.raw)]
    ++ optField "data".data m.data
    ++ optField "title".data (m.title.map .str)
    ++ optField "body".data (m.body.map .str)
    ++ optField "sound".data (m.sound.map serializeSound)
    ++ optField "ttl".data (m.ttl.map fun n => .num n)
    ++ optField "expiration".data (m.expiration.map fun n => .num n)
    ++ optField "priority".data (m.priority.map serializePriority)
    ++ optField "badge".data (m.badge.map fun n => .num n))

theorem map_fst_optField (k : RStr) (o : Option Json) :
    (optField k o).map Prod.fst = if o.isSome then [k] else [] := by
  cases o <;> rfl

/-! ### Response decoding (`src/response.rs`) -/

/-- `PushReceiptId`: the opaque server-issued correlation key. -/
structure PushReceiptId where
  id : RStr
deriving DecidableEq

/-- The error-detail enum of `src/response.rs`, internally tagged by the
`error` field, with a `#[serde(other)]` unit fallback `UnknownError`
that carries no payload. -/
inductive PushReceiptErrorDetails where
  | DeviceNotRegistered : PushToken → PushReceiptErrorDetails
  | InvalidCredentials : PushReceiptErrorDetails
  | MessageTooBig : PushReceiptErrorDetails
  | MessageRateExceeded : PushReceiptErrorDetails
  | UnknownError : PushReceiptErrorDetails
deriving DecidableEq

/-- The per-message ticket of `src/response.rs`, internally tagged by
the `status` field with exactly the two tag values "ok" and "error". -/
inductive PushTicket where
  | ok : PushReceiptId → PushTicket
  | error : RStr → Option PushReceiptErrorDetails → PushTicket
deriving DecidableEq

/-- Serde deserialization of `PushToken` (`src/message.rs`): expects a
JSON string and runs `TryFrom`, turning a parse failure into a custom
decode error. -/
def decodePushToken (j : Json) : Except RStr PushToken :=
  match j with
  | .str s =>
    match pushTokenTryFrom s with
    | .ok t => .ok t
    | .error e => .error e.given
  | _ => .error "invalid type: expected a string".data

/-- Serde deserialization of `PushReceiptErrorDetails`: an internally
tagged enum reads the `error` field of a JSON object; an unrecognized
string tag hits the `#[serde(other)]` variant `UnknownError`
(discarding everything else in the payload), while a missing or
non-string tag, or a non-object payload, is a decode error. The
`DeviceNotRegistered` variant additionally requires its renamed
`expoPushToken` field. -/
def decodeErrorDetails (j : Json) : Except RStr PushReceiptErrorDetails :=
  match j with
  | .obj fields =>
    match jLookup "error".data fields with
    | some (.str tag) =>
      if tag = "DeviceNotRegistered".data then
        match jLookup "expoPushToken".data fields with
        | some jv =>
          match decodePushToken jv with
          | .ok t => .ok (.DeviceNotRegistered t)
          | .error e => .error e
        | none => .error "missing field expoPushToken".data
      else if tag = "InvalidCredentials".data then .ok .InvalidCredentials
      else if tag = "MessageTooBig".data then .ok .MessageTooBig
      else if tag = "MessageRateExceeded".data then .ok .MessageRateExceeded
      else .ok .UnknownError
    | some _ => .error "invalid type for tag error".data
    | none => .error "missing field error".data
  | _ => .error "invalid type: expected an object".data

/-- Deserialization of the optional `details` field: absent or `null`
gives `none`; any other value must decode as error details. -/
def decodeOptDetails (fields : List (RStr × Json)) :
    Except RStr (Option PushReceiptErrorDetails) :=
  match jLookup "details".data fields with
  | none => .ok none
  | some .null => .ok none
  | some j =>
    match decodeErrorDetails j with
    | .ok d => .ok (some d)
    | .error e => .error e

/-- Serde deserialization of `PushTicket`: internally tagged by
`status`; the tag "ok" requires a string `id`, the tag "error" requires
a string `message` and optionally `details`; any other tag value — and
a missing or non-string tag — is a decode error. -/
def decodePushTicket (j : Json) : Except RStr PushTicket :=
  match j with
  | .obj fields =>
    match jLookup "status".data fields with
    | some (.str tag) =>
      if tag = "ok".data then
        match jLookup "id".data fields with
        | some (.str i) => .ok (.ok ⟨i⟩)
        | some _ => .error "invalid type for field id".data
        | none => .error "missing field id".data
      else if tag = "error".data then
        match jLookup "message".data fields with
        | some (.str msg) =>
          match decodeOptDetails fields with
          | .ok d => .ok (.error msg d)
          | .error e => .error e
        | some _ => .error "invalid type for field message".data
        | none => .error "missing field message".data
      else .error ("unknown variant ".data ++ tag)
    | some _ => .error "invalid type for tag status".data
    | none => .error "missing field status".data
  | _ => .error "invalid type: expected an object".data

/-- Deserialization of `Vec<PushTicket>`: elements in order, the first
failure aborting the whole decode. -/
def decodeTicketArray : List Json → Except RStr (List PushTicket)
  | [] => .ok []
  | j :: js =>
    match decodePushTicket j with
    | .error e => .error e
    | .ok t =>
      match decodeTicketArray js with
      | .error e => .error e
      | .ok ts => .ok (t :: ts)

/-- Deserialization of the `PushResponse` wrapper of `src/response.rs`:
an object whose `data` field is an array of tickets (other fields are
ignored, as serde does by default). -/
def decodePushResponse (j : Json) : Except RStr (List PushTicket) :=
  match j with
  | .obj fields =>
    match jLookup "data".data fields with
    | some (.arr elems) => decodeTicketArray elems
    | some _ => .error "invalid type for field data".data
    | none => .error "missing field data".data
  | _ => .error "invalid type: expected an object".data

/-! ### The legacy response decoding of `src/lib.rs` -/

/-- The `PushReceipt<T>` struct of `src/lib.rs` at `T = Value`: a plain
struct with a free-form `status` string and optional `message` and
`details` — not a tagged enum. -/
structure OldPushReceipt where
  status : RStr
  message : Option RStr
  details : Option Json

/-- Deserialization of the optional `message` field of the legacy
receipt: absent or `null` is `none`, a string is `some`, anything else
is a decode error. -/
def decodeOldMessage (fields : List (RStr × Json)) :
    Except RStr (Option RStr) :=
  match jLookup "message".data fields with
  | none => .ok none
  | some .null => .ok none
  | some (.str s) => .ok (some s)
  | some _ => .error "invalid type for field message".data

/-- Deserialization of the optional `details` field of the legacy
receipt at `T = Value`: a `Value` accepts any JSON, so only absence or
`null` give `none`. -/
def decodeOldDetails (fields : List (RStr × Json)) :
    Except RStr (Option Json) :=
  match jLookup "details".data fields with
  | none => .ok none
  | some .null => .ok none
  | some j => .ok (some j)

/-- Serde deserialization of the legacy `PushReceipt<Value>` struct of
`src/lib.rs`: any object with a string `status` field decodes, whatever
the value of `status`. -/
def decodeOldPushReceipt (j : Json) : Except RStr OldPushReceipt :=
  match j with
  | .obj fields =>
    match jLookup "status".data fields with
    | some (.str st) =>
      match decodeOldMessage fields with
      | .error e => .error e
      | .ok msg =>
        match decodeOldDetails fields with
        | .error e => .error e
        | .ok det => .ok ⟨st, msg, det⟩
    | some _ => .error "invalid type for field status".data
    | none => .error "missing field status".data
  | _ => .error "invalid type: expected an object".data

/-- Deserialization of `Vec<PushReceipt<Value>>`, element by element. -/
def decodeOldReceiptArray : List Json → Except RStr (List OldPushReceipt)
  | [] => .ok []
  | j :: js =>
    match decodeOldPushReceipt j with
    | .error e => .error e
    | .ok t =>
      match decodeOldReceiptArray js with
      | .error e => .error e
      | .ok ts => .ok (t :: ts)

/-- Deserialization of the legacy `PushResponse<Value>` wrapper of
`src/lib.rs`, as performed by `send_push_notifications_chunk` on the
response body. -/
def decodeOldPushResponse (j : Json) : Except RStr (List OldPushReceipt) :=
  match j with
  | .obj fields =>
    match jLookup "data".data fields with
    | some (.arr elems) => decodeOldReceiptArray elems
    | some _ => .error "invalid type for field data".data
    | none => .error "missing field data".data
  | _ => .error "invalid type: expected an object".data

/-! ### Decoder lemmas -/

theorem decodePushTicket_unknown_tag (efields : List (RStr × Json))
    (tag : RStr) (hstatus : jLookup "status".data efields = some (.str tag))
    (hok : tag ≠ "ok".data) (herr : tag ≠ "error".data) :
    decodePushTicket (.obj efields) = .error ("unknown variant ".data ++ tag) := by
  simp only [decodePushTicket, hstatus]
  rw [if_neg hok, if_neg herr]

theorem decodeTicketArray_mem_error (j : Json) (e : RStr) :
    ∀ elems : List Json, j ∈ elems → decodePushTicket j = .error e →
      ∃ e2, decodeTicketArray elems = .error e2 := by
  intro elems
  induction elems with
  | nil =>
    intro hmem _
    simp at hmem
  | cons x xs ih =>
    intro hmem hj
    rcases hx : decodePushTicket x with ex | t
    · exact ⟨ex, by simp [decodeTicketArray, hx]⟩
    · rcases List.mem_cons.mp hmem with rfl | hmem2
      · rw [hj] at hx
        exact absurd hx (by simp)
      · obtain ⟨e2, he2⟩ := ih hmem2 hj
        exact ⟨e2, by simp [decodeTicketArray, hx, he2]⟩

/-! ### Claim theorems -/

/-- C1 (counterexample): the claim fails on the legacy decode path. The
decoder actually used by `send_push_notifications_chunk` in `src/lib.rs`
reads the response into `PushResponse<Value>` whose elements are the
plain struct `PushReceipt` with a free-form `status: String`; a `data`
element with the unknown status "weird" decodes successfully and is
returned as a ticket instead of failing. -/
theorem c1_unknown_status_counterexample :
    decodeOldPushResponse
      (.obj [("data".data, .arr [.obj [("status".data, .str "weird".data)]])])
      = .ok [⟨"weird".data, none, none⟩] := by
  rfl

/-- C1 (amended): for the tagged `PushTicket` decoder of
`src/response.rs`, every response body whose `data` array contains an
object element whose `status` field is a string other than "ok" and
"error" fails to decode — the element is never dropped or returned as a
ticket. (The legacy `PushReceipt` decoder of `src/lib.rs`, by contrast,
accepts any status string: see the counterexample.) -/
theorem c1_unknown_status_is_decode_error
    (fields efields : List (RStr × Json)) (elems : List Json) (tag : RStr)
    (hdata : jLookup "data".data fields = some (.arr elems))
    (hmem : Json.obj efields ∈ elems)
    (hstatus : jLookup "status".data efields = some (.str tag))
    (hok : tag ≠ "ok".data) (herr : tag ≠ "error".data) :
    ∃ e, decodePushResponse (.obj fields) = .error e := by
  have hticket := decodePushTicket_unknown_tag efields tag hstatus hok herr
  obtain ⟨e2, he2⟩ := decodeTicketArray_mem_error (.obj efields) _ elems hmem hticket
  exact ⟨e2, by simp [decodePushResponse, hdata, he2]⟩

/-- C1 (witness): the amended theorem applied to a concrete response
body with status "weird". -/
theorem c1_witness :
    ∃ e, decodePushResponse
      (.obj [("data".data, .arr [.obj [("status".data, .str "weird".data)]])])
      = .error e :=
  c1_unknown_status_is_decode_error
    [("data".data, .arr [.obj [("status".data, .str "weird".data)]])]
    [("status".data, .str "weird".data)]
    [.obj [("status".data, .str "weird".data)]]
    "weird".data rfl (List.mem_singleton.mpr rfl) rfl
    (by decide) (by decide)

/-- C5: for every string `s`, both `ExpoPushToken[s]` and
`ExponentPushToken[s]` parse successfully (the token keeping the full
input); and every string that lacks both recognized heads, or does not
end with a closing bracket, is rejected with an error carrying the
rejected input. -/
theorem c5_token_parsing (s t : RStr) :
    pushTokenTryFrom ("ExpoPushToken[".data ++ s ++ "]".data)
      = .ok ⟨"ExpoPushToken[".data ++ s ++ "]".data⟩
    ∧ pushTokenTryFrom ("ExponentPushToken[".data ++ s ++ "]".data)
      = .ok ⟨"ExponentPushToken[".data ++ s ++ "]".data⟩
    ∧ (((startsWithL t "ExponentPushToken[".data = false
          ∧ startsWithL t "ExpoPushToken[".data = false)
        ∨ endsWithL t "]".data = false) →
      pushTokenTryFrom t = .error ⟨t⟩) := by
  refine ⟨?_, ?_, ?_⟩
  · have h1 : startsWithL ("ExpoPushToken[".data ++ s ++ "]".data)
        "ExpoPushToken[".data = true := by
      rw [List.append_assoc]
      exact startsWithL_append _ _
    have h2 : endsWithL ("ExpoPushToken[".data ++ s ++ "]".data)
        "]".data = true := endsWithL_append _ _
    unfold pushTokenTryFrom
    rw [h1, h2]
    simp
  · have h1 : startsWithL ("ExponentPushToken[".data ++ s ++ "]".data)
        "ExponentPushToken[".data = true := by
      rw [List.append_assoc]
      exact startsWithL_append _ _
    have h2 : endsWithL ("ExponentPushToken[".data ++ s ++ "]".data)
        "]".data = true := endsWithL_append _ _
    unfold pushTokenTryFrom
    rw [h1, h2]
    simp
  · intro h
    unfold pushTokenTryFrom
    rcases h with ⟨h1, h2⟩ | h3
    · rw [h1, h2]
      simp
    · rw [h3]
      simp

/-- C5 (witness): the parsing theorem applied to the concrete inputs
`ExpoPushToken[abc]` (accepted) and `bogus` (rejected, the error
carrying the input). -/
theorem c5_witness :
    pushTokenTryFrom ("ExpoPushToken[".data ++ "abc".data ++ "]".data)
      = .ok ⟨"ExpoPushToken[".data ++ "abc".data ++ "]".data⟩
    ∧ pushTokenTryFrom "bogus".data = .error ⟨"bogus".data⟩ :=
  ⟨(c5_token_parsing "abc".data "bogus".data).1,
   (c5_token_parsing "abc".data "bogus".data).2.2
     (Or.inl ⟨by decide, by decide⟩)⟩

/-- C6 (counterexample): the claim fails on the code in two ways. A
payload with no `error` tag at all — such as the object with the single
key "cause" — matches no known cause shape, yet decoding fails instead
of falling back; and the `#[serde(other)]` fallback variant
`UnknownError` is a unit variant, so the two visibly different payloads
below decode to the very same value — the raw structured value is
discarded, not preserved. -/
theorem c6_details_counterexample :
    decodeErrorDetails (.obj [("cause".data, .str "X".data)])
      = .error "missing field error".data
    ∧ decodeErrorDetails
        (.obj [("error".data, .str "SomeNewCause".data), ("extra".data, .num 1)])
      = .ok .UnknownError
    ∧ decodeErrorDetails (.obj [("error".data, .str "OtherCause".data)])
      = .ok .UnknownError := by
  exact ⟨rfl, rfl, rfl⟩

/-- C6 (amended): every error-detail payload whose `error` tag is a
string different from the four known causes decodes, without failure,
to the payload-free fallback `UnknownError`; the raw structured value
is not preserved (the fallback is a unit variant), and payloads lacking
a string `error` tag are decode errors. -/
theorem c6_unknown_cause_fallback (fields : List (RStr × Json)) (tag : RStr)
    (htag : jLookup "error".data fields = some (.str tag))
    (h1 : tag ≠ "DeviceNotRegistered".data)
    (h2 : tag ≠ "InvalidCredentials".data)
    (h3 : tag ≠ "MessageTooBig".data)
    (h4 : tag ≠ "MessageRateExceeded".data) :
    decodeErrorDetails (.obj fields) = .ok .UnknownError := by
  simp only [decodeErrorDetails, htag]
  rw [if_neg h1, if_neg h2, if_neg h3, if_neg h4]

/-- C6 (witness): the amended theorem applied to a concrete payload
with the unrecognized cause tag "Whatever". -/
theorem c6_witness :
    decodeErrorDetails (.obj [("error".data, .str "Whatever".data)])
      = .ok .UnknownError :=
  c6_unknown_cause_fallback [("error".data, .str "Whatever".data)]
    "Whatever".data rfl (by decide) (by decide) (by decide) (by decide)

/-- C2: for every message sequence and every chunk size `k > 0`, the
chunker yields exactly `ceil(n / k) = (n + k - 1) / k` chunks, their
concatenation reproduces the sequence in order, and every chunk except
possibly the last has length exactly `k`. -/
theorem c2_chunker (k : Nat) (l : List α) (hk : 0 < k) :
    ∃ cs, sliceChunks k l = some cs
      ∧ cs.length = (l.length + k - 1) / k
      ∧ cs.flatten = l
      ∧ ∀ c ∈ cs.dropLast, c.length = k := by
  refine ⟨chunksGo k l, ?_, chunksGo_length k hk l, chunksGo_flatten k l,
    chunksGo_dropLast_length k hk l⟩
  simp [sliceChunks, Nat.pos_iff_ne_zero.mp hk]

/-- C2 (witness): the chunker theorem applied to a five-element
sequence with chunk size two. -/
theorem c2_witness :
    ∃ cs, sliceChunks 2 [0, 1, 2, 3, 4] = some cs
      ∧ cs.length = (([0, 1, 2, 3, 4] : List Nat).length + 2 - 1) / 2
      ∧ cs.flatten = [0, 1, 2, 3, 4]
      ∧ ∀ c ∈ cs.dropLast, c.length = 2 :=
  c2_chunker 2 [0, 1, 2, 3, 4] (by decide)

/-- C3: for `send_push_notifications` with a positive chunk size, if
any chunk dispatch fails the whole call returns an error — in
particular no value of the `ok` constructor is produced, so no tickets
from previously successful chunks are visible to the caller; and if
every chunk succeeds the result is the in-order concatenation of the
per-chunk ticket arrays. -/
theorem c3_send_many (p : PushNotifier)
    (dispatch : List α → Except ε (List τ)) (msgs : List α)
    (f : List α → List τ) (hk : 0 < p.pushes_per_request) :
    ((∃ c ∈ chunksGo p.pushes_per_request msgs, ∃ e, dispatch c = .error e) →
      (∃ e, send_push_notifications p dispatch msgs = .err e)
      ∧ ∀ ts, send_push_notifications p dispatch msgs ≠ .ok ts)
    ∧ ((∀ c ∈ chunksGo p.pushes_per_request msgs, dispatch c = .ok (f c)) →
      send_push_notifications p dispatch msgs =
        .ok ((chunksGo p.pushes_per_request msgs).map f).flatten) := by
  have hsend : send_push_notifications p dispatch msgs
      = dispatchLoop dispatch (chunksGo p.pushes_per_request msgs) [] := by
    simp [send_push_notifications, sliceChunks, Nat.pos_iff_ne_zero.mp hk]
  constructor
  · intro h
    obtain ⟨e, he⟩ := dispatchLoop_first_err dispatch _ [] h
    refine ⟨⟨e, by rw [hsend, he]⟩, ?_⟩
    intro ts hts
    rw [hsend, he] at hts
    exact RustResult.noConfusion hts
  · intro h
    rw [hsend, dispatchLoop_all_ok dispatch f _ [] h]
    simp

/-- C3 (witness): the theorem applied twice at chunk size one and the
two-element sequence, once with a dispatch that fails on every chunk
and once with a dispatch that echoes each chunk back. -/
theorem c3_witness :
    (∃ e, send_push_notifications (with_pushes_per_request PushNotifier.new 1)
      (fun _ : List Nat => (Except.error () : Except Unit (List Nat))) [1, 2]
      = .err e)
    ∧ send_push_notifications (with_pushes_per_request PushNotifier.new 1)
      (fun c : List Nat => (Except.ok c : Except Unit (List Nat))) [1, 2]
      = .ok [1, 2] := by
  have hch : chunksGo (with_pushes_per_request PushNotifier.new 1).pushes_per_request
      ([1, 2] : List Nat) = [[1], [2]] := by
    simp [chunksGo, with_pushes_per_request, PushNotifier.new]
  constructor
  · refine ((c3_send_many (with_pushes_per_request PushNotifier.new 1)
      (fun _ : List Nat => (Except.error () : Except Unit (List Nat))) [1, 2]
      (fun c => c) (by decide)).1 ⟨[1], ?_, (), rfl⟩).1
    rw [hch]
    simp
  · have h2 := (c3_send_many (with_pushes_per_request PushNotifier.new 1)
      (fun c : List Nat => (Except.ok c : Except Unit (List Nat))) [1, 2]
      (fun c => c) (by decide)).2 (fun c _ => rfl)
    rw [hch] at h2
    simpa using h2

/-- C4: under the default threshold policy (in both the legacy
`src/lib.rs` enum and the `src/gzip_policy.rs` enum with its default
threshold of 1024) a serialized body of exactly 1024 bytes is not
compressed while one of 1025 bytes is; under `Always` every body is
compressed and under `Never` none is, regardless of size. The length
argument is the byte length of the uncompressed serialized body, which
is what `send_push_notifications_chunk` measures before compressing. -/
theorem c4_gzip_threshold :
    libShouldCompress libGzipPolicyDefault 1024 = false
    ∧ libShouldCompress libGzipPolicyDefault 1025 = true
    ∧ (∀ n, libShouldCompress .Always n = true)
    ∧ (∀ n, libShouldCompress .Never n = false)
    ∧ shouldCompress gzipPolicyDefault 1024 = false
    ∧ shouldCompress gzipPolicyDefault 1025 = true
    ∧ (∀ n, shouldCompress .Always n = true)
    ∧ (∀ n, shouldCompress .Never n = false) :=
  ⟨by decide, by decide, fun _ => rfl, fun _ => rfl,
   by decide, by decide, fun _ => rfl, fun _ => rfl⟩

/-- C7: with a positive chunk size, the empty message sequence yields
zero chunks and `send_push_notifications` returns `Ok` with the empty
ticket list, whatever the dispatch does — a valid no-op, not an
error. -/
theorem c7_empty_send (p : PushNotifier)
    (dispatch : List α → Except ε (List τ))
    (hk : 0 < p.pushes_per_request) :
    sliceChunks p.pushes_per_request ([] : List α) = some []
    ∧ send_push_notifications p dispatch [] = .ok [] := by
  have h : sliceChunks p.pushes_per_request ([] : List α) = some [] := by
    simp [sliceChunks, Nat.pos_iff_ne_zero.mp hk, chunksGo_nil]
  refine ⟨h, ?_⟩
  simp [send_push_notifications, h, dispatchLoop]

/-- C7 (witness): the empty-send theorem applied to the default
configuration (chunk size 100). -/
theorem c7_witness :
    sliceChunks PushNotifier.new.pushes_per_request ([] : List Nat) = some []
    ∧ send_push_notifications PushNotifier.new
        (fun c : List Nat => (Except.ok c : Except Unit (List Nat))) []
      = .ok [] :=
  c7_empty_send PushNotifier.new
    (fun c : List Nat => (Except.ok c : Except Unit (List Nat))) (by decide)

/-- C8: serialization of a `PushMessage` emits the `to` key always and
a key for exactly those optional fields that are set, in declaration
order; an unset optional field contributes no key at all to the wire
object — in particular never a null value. -/
theorem c8_wire_keys (m : PushMessage) :
    jsonObjKeys (serializePushMessage m) =
      "to".data :: ((if (m.data).isSome then ["data".data] else [])
        ++ (if (m.title).isSome then ["title".data] else [])
        ++ (if (m.body).isSome then ["body".data] else [])
        ++ (if (m.sound).isSome then ["sound".data] else [])
        ++ (if (m.ttl).isSome then ["ttl".data] else [])
        ++ (if (m.expiration).isSome then ["expiration".data] else [])
        ++ (if (m.priority).isSome then ["priority".data] else [])
        ++ (if (m.badge).isSome then ["badge".data] else [])) := by
  simp only [serializePushMessage, jsonObjKeys, List.map_append,
    map_fst_optField, Option.isSome_map', List.map_cons, List.map_nil,
    List.cons_append, List.nil_append]
  cases m.ttl <;> cases m.expiration <;> cases m.badge <;> rfl

/-- C9 (counterexample): the claim fails on the code. With the chunk
size configured to 0 and a non-empty message sequence, the send
operation does not reach any configuration-error branch: it panics, the
`crash` outcome being the assertion failure of `slice::chunks` on a
zero chunk size (a distinct constructor from the `err` branch of the
result). -/
theorem c9_zero_size_counterexample :
    send_push_notifications (with_pushes_per_request PushNotifier.new 0)
      (fun c : List Nat => (Except.ok c : Except Unit (List Nat))) [0]
      = .crash chunkSizeZeroMsg := rfl

/-- C9 (amended): when the configured chunk size is 0 and the message
sequence is non-empty, the send operation panics immediately at the
chunker (the assertion inside `slice::chunks`) before any dispatch, so
chunking never diverges; no configuration-error branch exists or is
reached. -/
theorem c9_zero_size_panics (dispatch : List α → Except ε (List τ))
    (msgs : List α) (hne : msgs ≠ []) :
    send_push_notifications (with_pushes_per_request PushNotifier.new 0)
      dispatch msgs = .crash chunkSizeZeroMsg := rfl

/-- C9 (witness): the amended theorem applied to a concrete singleton
sequence. -/
theorem c9_witness :
    send_push_notifications (with_pushes_per_request PushNotifier.new 0)
      (fun _ : List Nat => (Except.error () : Except Unit (List Nat))) [7]
      = .crash chunkSizeZeroMsg :=
  c9_zero_size_panics _ [7] (by decide)

/-- C10: if the response to a single-message send decodes successfully
to a ticket vector, then an empty vector makes `send_push_notification`
panic (the `unwrap` of `pop` on an empty vector) rather than return an
error, while a non-empty vector makes it return the popped (last)
ticket — the unwrap is safe exactly under the precondition that the
server returned at least one ticket. -/
theorem c10_single_send_unwrap (dispatch : List α → Except ε (List τ))
    (msg : α) (ts : List τ) (h : dispatch [msg] = .ok ts) :
    (ts = [] → send_push_notification dispatch msg = .crash unwrapNoneMsg)
    ∧ (ts ≠ [] → ∃ t, vecPop ts = some t
        ∧ send_push_notification dispatch msg = .ok t) := by
  constructor
  · intro hts
    subst hts
    simp [send_push_notification, h, vecPop]
  · intro hts
    have hlast := List.getLast?_eq_getLast_of_ne_nil hts
    refine ⟨ts.getLast hts, hlast, ?_⟩
    simp [send_push_notification, h, vecPop, hlast]

/-- C10 (witness): the theorem applied to a dispatch whose decoded
response has an empty `data` vector: the call crashes with the unwrap
panic. -/
theorem c10_witness :
    send_push_notification
      (fun _ : List Nat => (Except.ok ([] : List Nat) : Except Unit (List Nat)))
      (0 : Nat) = .crash unwrapNoneMsg :=
  (c10_single_send_unwrap
    (fun _ : List Nat => (Except.ok ([] : List Nat) : Except Unit (List Nat)))
    0 [] rfl).1 rfl
